import Mathlib

/-!
Shallow embedding of the metasql Redshift Data driver core
(src/utils/utils.go, src/result.go, src/conn.go, src/unnamed/part_000).

Modelling conventions:
* Go strings are `String` (rune iteration is `String.data : List Char`).
* Go slices are `List`; a push onto the quote stack `append(stack, r)` with
  top `stack[len(stack)-1]` is modelled with the top at the HEAD of the list
  (`r :: stack`), a pure reversal of orientation.
* Pointers to `redshiftDataDelayedResult` cells are modelled as indices into
  an allocation list `heap : List (Option ResVal)`; every Go expression
  `&redshiftDataDelayedResult{}` allocates a fresh cell (a fresh index,
  initially `none` = unresolved); writing `cell.Result = v` sets the entry to
  `some v`.
* The remote client (`client.ExecuteStatement`, the polling loop
  `waitWithCancel`, `BatchExecuteStatement`) is an external collaborator: its
  responses are passed in as explicit oracle arguments, and every operation
  additionally returns the list of remote calls it performed, so that
  "no remote call happens" is a provable statement.
* Go `error` returns are `Except GoFault`; a Go `panic` is the distinguished
  constructor `GoFault.fatal`, separate from ordinary errors
  (`GoFault.goError`).
* `fmt.Sprintf("%v", arg.Value)` is out of scope of the claims; a driver
  argument carries its rendered string value directly.
-/

namespace Metasql

/-- The two quote characters tracked by the rewriter, written via code points
to keep literals unambiguous: `dquote` is `"` (34), `squote` is `'` (39). -/
def dquote : Char := Char.ofNat 34

def squote : Char := Char.ofNat 39

/-- utils.Nullif: empty string becomes nil. -/
def Nullif (str : String) : Option String :=
  if str = "" then none else some str

/-- utils.Coalesce: first non-nil string, else "". -/
def Coalesce : List (Option String) → String
  | [] => ""
  | some s :: _ => s
  | none :: rest => Coalesce rest

/-- State of the `rewriteQuery` scan: output runes accumulated so far, the
quote stack (top at the head; Go keeps the top at the slice end), and the
placeholder counter (`exclamationCount`). -/
structure RwState where
  runes : List Char
  stack : List Char
  count : Nat
deriving DecidableEq, Repr

/-- One iteration of the `for _, r := range query` loop body of
`rewriteQuery` (src/utils/utils.go lines 212-235).  When the stack is
non-empty, a rune equal to the top pops and is copied (`continue`); any other
rune falls through to the bottom `switch`, which pushes `"`/`'` onto the
stack, and is copied.  When the stack is empty, `?` emits `:<count>` and
`$` emits `:` (both `continue`), and otherwise the rune falls through to the
bottom `switch` and is copied. -/
def rewriteStep (st : RwState) (r : Char) : RwState :=
  match st.stack with
  | top :: rest =>
    if r = top then
      { st with stack := rest, runes := st.runes ++ [r] }
    else if r = dquote ∨ r = squote then
      { st with stack := r :: top :: rest, runes := st.runes ++ [r] }
    else
      { st with runes := st.runes ++ [r] }
  | [] =>
    if r = '?' then
      { st with count := st.count + 1,
                runes := st.runes ++ (':' :: Nat.toDigits 10 (st.count + 1)) }
    else if r = '$' then
      { st with runes := st.runes ++ [':'] }
    else if r = dquote ∨ r = squote then
      { st with stack := [r], runes := st.runes ++ [r] }
    else
      { st with runes := st.runes ++ [r] }

/-- rewriteQuery (src/utils/utils.go lines 205-237). -/
def rewriteQuery (query : String) (paramsCount : Nat) : String :=
  if paramsCount = 0 then query
  else String.mk (query.data.foldl rewriteStep ⟨[], [], 0⟩).runes

/-- A driver.NamedValue: optional name, 1-based ordinal, and the value
already rendered by `fmt.Sprintf("%v", ·)`. -/
structure NamedValue where
  name : String
  ordinal : Nat
  value : String
deriving DecidableEq, Repr

/-- awstypes.SqlParameter. -/
structure SqlParameter where
  name : String
  value : String
deriving DecidableEq, Repr

/-- convertArgsToParameters (src/utils/utils.go lines 239-251). -/
def convertArgsToParameters (args : List NamedValue) : List SqlParameter :=
  if args.length = 0 then []
  else args.map fun arg =>
    { name := Coalesce [Nullif arg.name, some (toString arg.ordinal)],
      value := arg.value }

/-- awstypes.StatusString values. -/
inductive Status where
  | aborted
  | all
  | failed
  | finished
  | picked
  | started
  | submitted
deriving DecidableEq, Repr

/-- The fields of redshiftdata.DescribeStatementOutput read by the embedded
code; pointer-typed fields are `Option`. -/
structure DescribeOut where
  id : Option String
  status : Status
  error : Option String
  hasResultSet : Option Bool
  resultRows : Int
deriving DecidableEq, Repr

/-- redshiftdata.ExecuteStatementOutput (only the Id field is read). -/
structure ExecOut where
  id : Option String
deriving DecidableEq, Repr

/-- One sub-statement descriptor of a batch response
(awstypes.SubStatementData; only ResultRows is read). -/
structure SubStatementData where
  resultRows : Int
deriving DecidableEq, Repr

/-- The describe output of a batch execution: the enumerated sub-statement
descriptors. -/
structure BatchDescribeOut where
  subStatements : List SubStatementData
deriving DecidableEq, Repr

/-- Ordinary Go error values produced by the embedded code, tagged with the
same distinguishing context strings the source formats into them. -/
inductive ConnError where
  | notSupported (ctx : String)
  | errInTx
  | errNotInTx
  | commitError (inner : ConnError)
  | subStatementNotFound (i : Nat)
  | executeError (msg : String)
  | waitError (msg : String)
  | queryAborted (msg : String)
  | queryFailed (msg : String)
  | queryNotFinished (status : Status)
  | batchError (msg : String)
deriving DecidableEq, Repr

/-- A Go outcome: an ordinary returned error, or a runtime fault (`panic`
or nil-pointer dereference), kept distinct per the source's design. -/
inductive GoFault where
  | goError (e : ConnError)
  | fatal (msg : String)
deriving DecidableEq, Repr

/-- True exactly on a runtime fault (Go panic), as opposed to an ordinary
returned error or success. -/
def isFatal {α : Type} : Except GoFault α → Bool
  | .error (.fatal _) => true
  | _ => false

/-- A remote-client invocation, recorded so that theorems can state that an
operation did or did not contact the remote service. -/
inductive RemoteCall where
  | executeStatement (sql : Option String)
  | batchExecuteStatement (sqls : List String)
deriving DecidableEq, Repr

/-- A driver.Result value returned by ExecContext: a pointer to a delayed
result cell (transaction path) or a real result built from the describe
output (non-transaction path, `newResult(output)`). -/
inductive DriverResult where
  | delayed (id : Nat)
  | fromExec (desc : DescribeOut)
deriving DecidableEq, Repr

/-- The value resolved into a delayed-result cell: at batched commit a real
sub-statement row count (`NewResultWithSubStatementData`), at
single-statement commit whatever driver.Result `ExecContext` returned. -/
inductive ResVal where
  | subStatement (resultRows : Int)
  | ofDriver (r : DriverResult)
deriving DecidableEq, Repr

/-- driver.TxOptions: isolation level (an integer; `sql.LevelDefault` is 0)
and the read-only flag. -/
structure TxOptions where
  isolation : Nat
  readOnly : Bool
deriving DecidableEq, Repr

/-- The default (zero-value) driver.TxOptions. -/
def TxOptions.zero : TxOptions := { isolation := 0, readOnly := false }

/-- sql.LevelDefault as a driver.IsolationLevel. -/
def levelDefault : Nat := 0

/-- redshiftDataConn (src/conn.go lines 12-22).  `aliveClosed` models
whether the `aliveCh` channel has been closed; `heap` is the allocation list
for delayed-result cells, and `delayedResult` holds the cell indices owned by
the current transaction. -/
structure Conn where
  isClosed : Bool
  aliveClosed : Bool
  inTx : Bool
  txOpts : TxOptions
  sqls : List String
  delayedResult : List Nat
  heap : List (Option ResVal)
deriving DecidableEq, Repr

/-- NewConnection (src/conn.go lines 24-30): fresh open connection with no
transaction state. -/
def NewConnection : Conn :=
  { isClosed := false, aliveClosed := false, inTx := false,
    txOpts := TxOptions.zero, sqls := [], delayedResult := [], heap := [] }

/-- Result triple of a connection operation: outcome, post-state, and the
remote calls performed. -/
abbrev OpResult (α : Type) := Except GoFault α × Conn × List RemoteCall

/-- PrepareContext (src/conn.go lines 32-34): always a not-supported error,
no state change, no remote call. -/
def PrepareContext (conn : Conn) (_query : String) : OpResult Unit :=
  (.error (.goError (.notSupported "prepared statment")), conn, [])

/-- Close (src/utils/utils.go lines 72-80): idempotent; on first call marks
the connection closed and closes the liveness channel. -/
def Close (conn : Conn) : OpResult Unit :=
  if conn.isClosed then (.ok (), conn, [])
  else (.ok (), { conn with isClosed := true, aliveClosed := true }, [])

/-- The ExecuteStatementInput assembled by QueryContext/ExecContext: the
rewritten SQL (nil when empty) and converted parameters. -/
structure ExecuteStatementInput where
  sql : Option String
  parameters : List SqlParameter
deriving DecidableEq, Repr

/-- executeStatement (src/utils/utils.go lines 253-289), with the remote
submit response and the `waitWithCancel` outcome supplied as oracles.
Returns the optional paginator handle (the statement id, present when the
statement has a result set) and the describe output.  Dereference of the
nil pointers `describeOutput.Error` / `describeOutput.HasResultSet` is a
runtime fault. -/
def executeStatement (submit : Except String ExecOut)
    (wait : Except String DescribeOut) (params : ExecuteStatementInput) :
    Except GoFault (Option (Option String) × DescribeOut) × List RemoteCall :=
  match submit with
  | .error e => (.error (.goError (.executeError e)), [.executeStatement params.sql])
  | .ok out =>
    let trace := [RemoteCall.executeStatement params.sql]
    match wait with
    | .error e => (.error (.goError (.waitError e)), trace)
    | .ok desc =>
      if desc.status = .aborted then
        match desc.error with
        | none => (.error (.fatal "nil pointer dereference"), trace)
        | some msg => (.error (.goError (.queryAborted msg)), trace)
      else if desc.status = .failed then
        match desc.error with
        | none => (.error (.fatal "nil pointer dereference"), trace)
        | some msg => (.error (.goError (.queryFailed msg)), trace)
      else if desc.status ≠ .finished then
        (.error (.goError (.queryNotFinished desc.status)), trace)
      else
        match desc.hasResultSet with
        | none => (.error (.fatal "nil pointer dereference"), trace)
        | some hrs =>
          if hrs then (.ok (some out.id, desc), trace)
          else (.ok (none, desc), trace)

/-- ExecContext (src/utils/utils.go lines 177-203).  In a transaction:
rejects non-empty args and read-only transactions; otherwise appends the SQL
to `sqls`, appends a freshly allocated delayed-result cell to
`delayedResult`, and returns a pointer to a SECOND freshly allocated
delayed-result cell (the source's `return &redshiftDataDelayedResult{}`).
Outside a transaction: rewrites, binds, and delegates to executeStatement. -/
def ExecContext (submit : Except String ExecOut)
    (wait : Except String DescribeOut) (conn : Conn) (query : String)
    (args : List NamedValue) : OpResult DriverResult :=
  if conn.inTx then
    if args.length > 0 then
      (.error (.goError (.notSupported "exec with args in transaction")), conn, [])
    else if conn.txOpts.readOnly then
      (.error (.goError (.notSupported "exec in read only transaction")), conn, [])
    else
      let appendedId := conn.heap.length
      let returnedId := conn.heap.length + 1
      let conn' := { conn with
        sqls := conn.sqls ++ [query],
        delayedResult := conn.delayedResult ++ [appendedId],
        heap := conn.heap ++ [none, none] }
      (.ok (.delayed returnedId), conn', [])
  else
    match executeStatement submit wait
        { sql := Nullif (rewriteQuery query args.length),
          parameters := convertArgsToParameters args } with
    | (.error f, tr) => (.error f, conn, tr)
    | (.ok (_, desc), tr) => (.ok (.fromExec desc), conn, tr)

/-- The rows handle built by QueryContext (`newRows(coalesce(output.ID), p)`). -/
structure RowsHandle where
  id : String
  paginator : Option (Option String)
deriving DecidableEq, Repr

/-- QueryContext (src/utils/utils.go lines 158-175): rejected inside a
transaction; otherwise rewrites, binds, executes, and wraps the paginator
into a rows handle. -/
def QueryContext (submit : Except String ExecOut)
    (wait : Except String DescribeOut) (conn : Conn) (query : String)
    (args : List NamedValue) : OpResult RowsHandle :=
  if conn.inTx then
    (.error (.goError .errInTx), conn, [])
  else
    match executeStatement submit wait
        { sql := Nullif (rewriteQuery query args.length),
          parameters := convertArgsToParameters args } with
    | (.error f, tr) => (.error f, conn, tr)
    | (.ok (p, desc), tr) => (.ok { id := Coalesce [desc.id], paginator := p }, conn, tr)

/-- The `cleanup` closure of BeginTx (src/utils/utils.go lines 92-98):
leaves the transaction, zeroes the options, and drops both buffers. -/
def cleanup (conn : Conn) : Conn :=
  { conn with inTx := false, txOpts := TxOptions.zero,
              sqls := [], delayedResult := [] }

/-- Write a resolved value into a delayed-result cell
(`conn.delayedResult[i].Result = v`). -/
def setCell (conn : Conn) (id : Nat) (v : ResVal) : Conn :=
  { conn with heap := conn.heap.set id (some v) }

/-- The commit loop over batch sub-statements (src/utils/utils.go lines
139-146): for each buffered cell index, if the response has no descriptor at
the running position the loop stops with that position (the indexing error),
otherwise the cell is resolved with the descriptor's row count.  The loop is
entered only when `len(sqls) = len(delayedResult)`, so iterating the cell
indices is iterating `range input.Sqls`. -/
def resolveLoop : List Nat → List SubStatementData → Nat →
    List (Option ResVal) → List (Option ResVal) ⊕ (Nat × List (Option ResVal))
  | [], _, _, heap => .inl heap
  | _ :: _, [], i, heap => .inr (i, heap)
  | id :: ids, d :: ds, i, heap =>
      resolveLoop ids ds (i + 1) (heap.set id (some (.subStatement d.resultRows)))

/-- BeginTx (src/utils/utils.go lines 82-152), success path state change:
only the flag and the recorded options. -/
def BeginTx (conn : Conn) (opts : TxOptions) : OpResult Unit :=
  if conn.inTx then
    (.error (.goError .errInTx), conn, [])
  else if opts.isolation ≠ levelDefault then
    (.error (.goError (.notSupported "isolation level")), conn, [])
  else
    (.ok (), { conn with inTx := true, txOpts := opts }, [])

/-- The OnRollback closure (src/utils/utils.go lines 100-109). -/
def OnRollback (conn : Conn) : OpResult Unit :=
  if conn.inTx then (.ok (), cleanup conn, [])
  else (.error (.goError .errNotInTx), conn, [])

/-- The OnCommit closure (src/utils/utils.go lines 111-148).  Zero buffered
statements: cleanup.  Mismatched buffer lengths: panic.  Exactly one: calls
`conn.ExecContext(ctx, conn.sqls[0], [])` — with `conn.inTx` still true —
and on success stores the returned driver result into `delayedResult[0]`,
returning nil WITHOUT cleanup.  Two or more: one batch call, then the
resolve loop, then cleanup (the error path keeps the partially mutated
state). -/
def OnCommit (submit : Except String ExecOut)
    (wait : Except String DescribeOut)
    (batch : Except String BatchDescribeOut) (conn : Conn) : OpResult Unit :=
  if conn.inTx = false then
    (.error (.goError .errNotInTx), conn, [])
  else if conn.sqls.length = 0 then
    (.ok (), cleanup conn, [])
  else if conn.sqls.length ≠ conn.delayedResult.length then
    (.error (.fatal "unexpected length of sqls and delayedResult"), conn, [])
  else if conn.sqls.length = 1 then
    match ExecContext submit wait conn (conn.sqls.headD "") [] with
    | (.error (.goError e), conn', tr) =>
        (.error (.goError (.commitError e)), conn', tr)
    | (.error (.fatal m), conn', tr) => (.error (.fatal m), conn', tr)
    | (.ok res, conn', tr) =>
        (.ok (), setCell conn' (conn.delayedResult.headD 0) (.ofDriver res), tr)
  else
    match batch with
    | .error e => (.error (.goError (.batchError e)), conn,
        [.batchExecuteStatement conn.sqls])
    | .ok desc =>
      match resolveLoop conn.delayedResult desc.subStatements 0 conn.heap with
      | .inl heap' => (.ok (), cleanup { conn with heap := heap' },
          [.batchExecuteStatement conn.sqls])
      | .inr (i, heap') =>
          (.error (.goError (.subStatementNotFound i)), { conn with heap := heap' },
            [.batchExecuteStatement conn.sqls])

/-- The connection states reachable from a fresh connection through the
driver's operations, for arbitrary SQL texts, arguments, options and remote
responses. -/
inductive Reachable : Conn → Prop where
  | init : Reachable NewConnection
  | stepClose {c : Conn} : Reachable c → Reachable (Close c).2.1
  | stepBegin {c : Conn} (opts : TxOptions) :
      Reachable c → Reachable (BeginTx c opts).2.1
  | stepExec {c : Conn} (submit : Except String ExecOut)
      (wait : Except String DescribeOut) (query : String)
      (args : List NamedValue) :
      Reachable c → Reachable (ExecContext submit wait c query args).2.1
  | stepQuery {c : Conn} (submit : Except String ExecOut)
      (wait : Except String DescribeOut) (query : String)
      (args : List NamedValue) :
      Reachable c → Reachable (QueryContext submit wait c query args).2.1
  | stepCommit {c : Conn} (submit : Except String ExecOut)
      (wait : Except String DescribeOut)
      (batch : Except String BatchDescribeOut) :
      Reachable c → Reachable (OnCommit submit wait batch c).2.1
  | stepRollback {c : Conn} : Reachable c → Reachable (OnRollback c).2.1

/-- The protocol invariant maintained by every operation: the two transaction
buffers stay index-aligned, and an idle connection holds no buffered
statements or delayed results. -/
def Inv (c : Conn) : Prop :=
  c.sqls.length = c.delayedResult.length ∧
    (c.inTx = false → c.sqls = [] ∧ c.delayedResult = [])

/-- The rewriter behaviour claimed by the spec, with "outside quotes" read in
the natural quoted-literal sense: a quote character opens a literal, inside a
literal every character (including the other quote kind) is plain content,
and only the same quote character closes it.  Outside a literal a `?` becomes
the next positional marker, a `$` becomes `:`, and everything else is
copied. -/
def claimRewrite : List Char → Option Char → Nat → List Char
  | [], _, _ => []
  | r :: cs, some q, n =>
      r :: claimRewrite cs (if r = q then none else some q) n
  | r :: cs, none, n =>
      if r = '?' then (':' :: Nat.toDigits 10 (n + 1)) ++ claimRewrite cs none (n + 1)
      else if r = dquote ∨ r = squote then r :: claimRewrite cs (some r) n
      else if r = '$' then ':' :: claimRewrite cs none n
      else r :: claimRewrite cs none n

/-- The rewriter behaviour under the amended reading of "outside quotes":
the scan keeps a stack of quote characters; a character matching the top
pops, any other quote character pushes (even inside an open quote), and
placeholders are rewritten exactly when the stack is empty — each bare `?`
becomes `:k` for the running 1-based count, each bare `$` becomes `:`. -/
def amendedRewrite : List Char → List Char → Nat → List Char
  | [], _, _ => []
  | r :: cs, q :: qs, n =>
      if r = q then r :: amendedRewrite cs qs n
      else if r = dquote ∨ r = squote then r :: amendedRewrite cs (r :: q :: qs) n
      else r :: amendedRewrite cs (q :: qs) n
  | r :: cs, [], n =>
      if r = '?' then (':' :: Nat.toDigits 10 (n + 1)) ++ amendedRewrite cs [] (n + 1)
      else if r = '$' then ':' :: amendedRewrite cs [] n
      else if r = dquote ∨ r = squote then r :: amendedRewrite cs [r] n
      else r :: amendedRewrite cs [] n

/-- The heap updates the commit loop performs: the buffered cells paired
positionally with the response descriptors, each such cell set to the
descriptor's row count. -/
def resolvePrefix (ids : List Nat) (descs : List SubStatementData)
    (heap : List (Option ResVal)) : List (Option ResVal) :=
  (List.zip ids descs).foldl
    (fun h p => h.set p.1 (some (.subStatement p.2.resultRows))) heap

/-- Oracle fixture for scenarios in which the remote service must not be
reached: any consultation would surface as this error. -/
def noSubmit : Except String ExecOut := .error "remote not consulted"

/-- Oracle fixture: the wait loop is never entered. -/
def noWait : Except String DescribeOut := .error "remote not consulted"

/-- Oracle fixture: no batch call is answered. -/
def noBatch : Except String BatchDescribeOut := .error "remote not consulted"

/-- Fixture: a fresh connection after one successful `BeginTx` with the
default options. -/
def txConn : Conn := (BeginTx NewConnection TxOptions.zero).2.1

/-- Fixture: `txConn` after buffering one statement via ExecContext. -/
def oneStmtConn : Conn :=
  (ExecContext noSubmit noWait txConn "UPDATE t SET a = 1" []).2.1

/-- Fixture: `txConn` after buffering three statements via ExecContext. -/
def threeStmtConn : Conn :=
  (ExecContext noSubmit noWait
    ((ExecContext noSubmit noWait oneStmtConn "INSERT INTO u VALUES (2)" []).2.1)
    "DELETE FROM v" []).2.1

theorem inv_new : Inv NewConnection := by
  constructor <;> simp [NewConnection]

theorem inv_close {c : Conn} (h : Inv c) : Inv (Close c).2.1 := by
  unfold Close
  split <;> simpa using h

theorem inv_begin {c : Conn} (opts : TxOptions) (h : Inv c) :
    Inv (BeginTx c opts).2.1 := by
  unfold BeginTx
  obtain ⟨h1, h2⟩ := h
  split
  · exact ⟨h1, h2⟩
  · split
    · exact ⟨h1, h2⟩
    · exact ⟨h1, by simp⟩

theorem inv_setCell {c : Conn} (id : Nat) (v : ResVal) (h : Inv c) :
    Inv (setCell c id v) := by
  obtain ⟨h1, h2⟩ := h
  exact ⟨by simpa [setCell] using h1, by simpa [setCell] using h2⟩

theorem inv_exec {c : Conn} (submit : Except String ExecOut)
    (wait : Except String DescribeOut) (query : String)
    (args : List NamedValue) (h : Inv c) :
    Inv (ExecContext submit wait c query args).2.1 := by
  obtain ⟨h1, h2⟩ := h
  unfold ExecContext
  split
  · rename_i hin
    split
    · exact ⟨h1, h2⟩
    · split
      · exact ⟨h1, h2⟩
      · refine ⟨by simp [h1], ?_⟩
        intro hfalse
        simp [hin] at hfalse
  · split <;> exact ⟨h1, h2⟩

theorem inv_query {c : Conn} (submit : Except String ExecOut)
    (wait : Except String DescribeOut) (query : String)
    (args : List NamedValue) (h : Inv c) :
    Inv (QueryContext submit wait c query args).2.1 := by
  unfold QueryContext
  split
  · exact h
  · split <;> exact h

theorem inv_cleanup (c : Conn) : Inv (cleanup c) := by
  constructor <;> simp [cleanup]

theorem inv_rollback {c : Conn} (h : Inv c) : Inv (OnRollback c).2.1 := by
  unfold OnRollback
  split
  · exact inv_cleanup c
  · exact h

theorem inv_commit {c : Conn} (submit : Except String ExecOut)
    (wait : Except String DescribeOut)
    (batch : Except String BatchDescribeOut) (h : Inv c) :
    Inv (OnCommit submit wait batch c).2.1 := by
  have hex := inv_exec (c := c) submit wait (c.sqls.headD "") [] h
  obtain ⟨h1, h2⟩ := h
  unfold OnCommit
  split
  · exact ⟨h1, h2⟩
  rename_i hin
  have hin' : c.inTx = true := by
    cases hx : c.inTx
    · exact absurd hx hin
    · rfl
  split
  · exact inv_cleanup c
  split
  · exact ⟨h1, h2⟩
  split
  · -- single-statement path: re-entrant ExecContext then setCell
    split
    · rename_i e conn' tr heq
      have hc : (ExecContext submit wait c (c.sqls.headD "") []).2.1 = conn' := by
        rw [heq]
      rw [hc] at hex
      exact hex
    · rename_i m conn' tr heq
      have hc : (ExecContext submit wait c (c.sqls.headD "") []).2.1 = conn' := by
        rw [heq]
      rw [hc] at hex
      exact hex
    · rename_i res conn' tr heq
      have hc : (ExecContext submit wait c (c.sqls.headD "") []).2.1 = conn' := by
        rw [heq]
      rw [hc] at hex
      exact inv_setCell _ _ hex
  · -- batched path
    split
    · exact ⟨h1, h2⟩
    split
    · exact inv_cleanup _
    · refine ⟨by simpa using h1, fun hfalse => ?_⟩
      rw [show ({ c with heap := _ } : Conn).inTx = c.inTx from rfl, hin'] at hfalse
      cases hfalse

theorem foldl_rewriteStep_runes (cs : List Char) :
    ∀ (acc stack : List Char) (n : Nat),
      (cs.foldl rewriteStep ⟨acc, stack, n⟩).runes =
        acc ++ amendedRewrite cs stack n := by
  induction cs with
  | nil => intro acc stack n; simp [amendedRewrite]
  | cons r cs ih =>
    intro acc stack n
    match stack with
    | q :: qs =>
      by_cases h1 : r = q
      · simp [rewriteStep, amendedRewrite, h1, ih]
      · by_cases h2 : r = dquote ∨ r = squote
        · simp [rewriteStep, amendedRewrite, h1, h2, ih]
        · simp [rewriteStep, amendedRewrite, h1, h2, ih]
    | [] =>
      by_cases h1 : r = '?'
      · simp [rewriteStep, amendedRewrite, h1, ih]
      · by_cases h2 : r = '$'
        · have h3 : ¬(r = dquote ∨ r = squote) := by
            rintro (h | h) <;> simp [h2, h, dquote, squote] at *
          simp [rewriteStep, amendedRewrite, h1, h2, h3, ih]
        · by_cases h3 : r = dquote ∨ r = squote
          · simp [rewriteStep, amendedRewrite, h1, h2, h3, ih]
          · simp [rewriteStep, amendedRewrite, h1, h2, h3, ih]

/-- Characterisation of the commit loop: when the response enumerates fewer
descriptors than buffered cells it stops with the first missing index, after
resolving every earlier cell; otherwise it resolves all cells. -/
theorem resolveLoop_eq (ids : List Nat) :
    ∀ (descs : List SubStatementData) (i : Nat) (heap : List (Option ResVal)),
      resolveLoop ids descs i heap =
        if descs.length < ids.length then
          .inr (i + descs.length, resolvePrefix ids descs heap)
        else .inl (resolvePrefix ids descs heap) := by
  induction ids with
  | nil => intro descs i heap; simp [resolveLoop, resolvePrefix]
  | cons id ids ih =>
    intro descs i heap
    cases descs with
    | nil => simp [resolveLoop, resolvePrefix]
    | cons d ds =>
      simp only [resolveLoop, ih, resolvePrefix, List.zip_cons_cons, List.foldl_cons,
        List.length_cons, Nat.succ_lt_succ_iff]
      split
      · have harith : i + 1 + ds.length = i + (ds.length + 1) := by omega
        rw [harith]
      · rfl

/-- Every reachable connection state satisfies the protocol invariant. -/
theorem reachable_inv {c : Conn} (h : Reachable c) : Inv c := by
  induction h with
  | init => exact inv_new
  | stepClose _ ih => exact inv_close ih
  | stepBegin opts _ ih => exact inv_begin opts ih
  | stepExec submit wait query args _ ih => exact inv_exec submit wait query args ih
  | stepQuery submit wait query args _ ih => exact inv_query submit wait query args ih
  | stepCommit submit wait batch _ ih => exact inv_commit submit wait batch ih
  | stepRollback _ ih => exact inv_rollback ih

/-- Claim C10: Close modifies only the closed flag and the liveness channel —
for every connection, including one with an open transaction, Close succeeds
and leaves `inTx`, the recorded transaction options, the buffered statement
list, the buffered Delayed Result list (and the cells they point to)
unchanged; no pending transaction is rolled back or discarded. -/
theorem claim10_close_frame (conn : Conn) :
    (Close conn).1 = .ok () ∧
    (Close conn).2.2 = [] ∧
    (Close conn).2.1.inTx = conn.inTx ∧
    (Close conn).2.1.txOpts = conn.txOpts ∧
    (Close conn).2.1.sqls = conn.sqls ∧
    (Close conn).2.1.delayedResult = conn.delayedResult ∧
    (Close conn).2.1.heap = conn.heap := by
  unfold Close
  split <;> simp

/-- Claim C7: every capability-unsupported operation — prepare (any SQL),
query while in a transaction, exec with non-empty arguments while in a
transaction, exec in a read-only transaction, and begin with non-default
isolation — returns an error with the connection state unchanged and an
empty remote-call trace (no ExecuteStatement, DescribeStatement or
BatchExecuteStatement call occurs). -/
theorem claim7_unsupported_rejected_without_remote_calls (conn : Conn)
    (submit : Except String ExecOut) (wait : Except String DescribeOut)
    (q : String) (args : List NamedValue) (opts : TxOptions) :
    (PrepareContext conn q =
      (.error (.goError (.notSupported "prepared statment")), conn, [])) ∧
    (conn.inTx = true → QueryContext submit wait conn q args =
      (.error (.goError .errInTx), conn, [])) ∧
    (conn.inTx = true → args ≠ [] → ExecContext submit wait conn q args =
      (.error (.goError (.notSupported "exec with args in transaction")), conn, [])) ∧
    (conn.inTx = true → conn.txOpts.readOnly = true →
      ExecContext submit wait conn q [] =
      (.error (.goError (.notSupported "exec in read only transaction")), conn, [])) ∧
    (conn.inTx = false → opts.isolation ≠ levelDefault →
      BeginTx conn opts =
      (.error (.goError (.notSupported "isolation level")), conn, [])) := by
  refine ⟨rfl, ?_, ?_, ?_, ?_⟩
  · intro hin
    simp [QueryContext, hin]
  · intro hin hargs
    have hlen : args.length > 0 := List.length_pos.mpr hargs
    simp [ExecContext, hin, hlen]
  · intro hin hro
    simp [ExecContext, hin, hro]
  · intro hin hiso
    simp [BeginTx, hin, hiso]

/-- Witness for C7 at concrete inputs: a query and a parameterized exec
inside an open default transaction are both rejected with the state
untouched and no remote call. -/
theorem claim7_witness :
    QueryContext noSubmit noWait txConn "SELECT 1" [] =
      (.error (.goError .errInTx), txConn, []) ∧
    ExecContext noSubmit noWait txConn "DELETE FROM t" [⟨"", 1, "7"⟩] =
      (.error (.goError (.notSupported "exec with args in transaction")), txConn, []) :=
  ⟨(claim7_unsupported_rejected_without_remote_calls txConn noSubmit noWait
      "SELECT 1" [] TxOptions.zero).2.1 rfl,
   (claim7_unsupported_rejected_without_remote_calls txConn noSubmit noWait
      "DELETE FROM t" [⟨"", 1, "7"⟩] TxOptions.zero).2.2.1 rfl (by decide)⟩

/-- Claim C4 counterexample: inside an open single quote (stack `[squote]`),
the rewriter meeting a double quote pushes it onto the stack — the stack
becomes `[dquote, squote]`, which is neither the unchanged stack `[squote]`
nor the popped stack `[]` the claim allows. -/
theorem claim4_counterexample :
    (rewriteStep ⟨[], [squote], 0⟩ dquote).stack = [dquote, squote] ∧
    ([dquote, squote] : List Char) ≠ [squote] ∧
    ([dquote, squote] : List Char) ≠ [] := by
  refine ⟨?_, by decide, by decide⟩
  simp [rewriteStep, dquote, squote]

/-- Claim C4 as amended: while the quote stack is non-empty every character
is copied to the output verbatim and the placeholder counter is untouched
(no rewriting); the character matching the stack top pops it; but a quote
character of either kind that does not match the top PUSHES onto the stack,
and any other character leaves the stack unchanged. -/
theorem claim4_amended_quoted_scan (st : RwState) (top r : Char)
    (rest : List Char) (h : st.stack = top :: rest) :
    (rewriteStep st r).runes = st.runes ++ [r] ∧
    (rewriteStep st r).count = st.count ∧
    (r = top → (rewriteStep st r).stack = rest) ∧
    (r ≠ top → (r = dquote ∨ r = squote) →
      (rewriteStep st r).stack = r :: top :: rest) ∧
    (r ≠ top → ¬(r = dquote ∨ r = squote) →
      (rewriteStep st r).stack = top :: rest) := by
  cases st with
  | mk runes stack count =>
    cases h
    by_cases h1 : r = top <;> by_cases h2 : r = dquote ∨ r = squote <;>
      simp [rewriteStep, h1, h2]

/-- Witness for C4's amended claim at a concrete state: inside an open
single quote the letter `a` is copied verbatim and leaves the stack as it
was. -/
theorem claim4_witness :
    (⟨[], [squote], 0⟩ : RwState).stack = [squote] ∧
    (rewriteStep ⟨[], [squote], 0⟩ 'a').runes = [] ++ ['a'] ∧
    (rewriteStep ⟨[], [squote], 0⟩ 'a').count = 0 ∧
    (rewriteStep ⟨[], [squote], 0⟩ 'a').stack = [squote] :=
  have h := claim4_amended_quoted_scan ⟨[], [squote], 0⟩ squote 'a' [] rfl
  ⟨rfl, h.1, h.2.1, h.2.2.2.2 (by decide) (by decide)⟩

/-- Claim C5 counterexample: on the input `'"'?` (a complete single-quoted
literal containing a double quote, followed by a bare `?` outside any
quoted literal) with paramCount 1, the code returns the input unchanged —
the bare `?` is NOT rewritten to `:1` as the claim requires, because the
inner double quote was pushed onto the quote stack and the stack never
empties. -/
theorem claim5_counterexample :
    rewriteQuery (String.mk [squote, dquote, squote, '?']) 1 ≠
      String.mk (claimRewrite [squote, dquote, squote, '?'] none 0) ∧
    rewriteQuery (String.mk [squote, dquote, squote, '?']) 1 =
      String.mk [squote, dquote, squote, '?'] ∧
    String.mk (claimRewrite [squote, dquote, squote, '?'] none 0) =
      String.mk [squote, dquote, squote, ':', '1'] := by
  refine ⟨?_, ?_, ?_⟩ <;> decide

/-- Claim C5 as amended: for every input string and positive paramCount the
rewritten string is exactly the amended scan `amendedRewrite`: each `?` seen
while the quote stack is empty becomes the next positional marker `:1`,
`:2`, … in left-to-right order (the numbering unaffected by quoted
material), each `?` seen while the stack is non-empty is copied unaltered,
and each `$` seen while the stack is empty becomes `:` with the following
digits passed through — where the stack pops on a match and pushes on any
other quote character, even inside an open quote. -/
theorem claim5_amended_rewrite (s : String) (n : Nat) (h : n ≠ 0) :
    rewriteQuery s n = String.mk (amendedRewrite s.data [] 0) := by
  simp [rewriteQuery, h, foldl_rewriteStep_runes]

/-- Witness for C5's amended claim on the spec's own examples. -/
theorem claim5_witness :
    (1 : Nat) ≠ 0 ∧
    rewriteQuery "SELECT * FROM t WHERE a = ? AND b = '?'" 1 =
      String.mk (amendedRewrite "SELECT * FROM t WHERE a = ? AND b = '?'".data [] 0) ∧
    rewriteQuery "WHERE x = $1" 1 =
      String.mk (amendedRewrite "WHERE x = $1".data [] 0) ∧
    rewriteQuery "SELECT * FROM t WHERE a = ? AND b = '?'" 1 =
      "SELECT * FROM t WHERE a = :1 AND b = '?'" ∧
    rewriteQuery "WHERE x = $1" 1 = "WHERE x = :1" :=
  ⟨by decide,
   claim5_amended_rewrite "SELECT * FROM t WHERE a = ? AND b = '?'" 1 (by decide),
   claim5_amended_rewrite "WHERE x = $1" 1 (by decide),
   by decide, by decide⟩

/-- Claim C1, behaviour of the code at the failing input: committing a
transaction whose buffer holds exactly one statement does NOT execute it and
does NOT reach Idle.  `OnCommit` calls `ExecContext` while `inTx` is still
true, so the statement is appended to the buffer a second time instead of
being executed (`sqls` doubles, no remote call is made — the trace is
empty), `pendingResults[0]` (cell 0) is "resolved" with a pointer to a
freshly allocated, still unresolved delayed result (cell 3) rather than a real
affected-row outcome, commit reports success, and the connection stays in
the transaction (`inTx` remains true). -/
theorem claim1_single_statement_commit_misbehaves :
    OnCommit noSubmit noWait noBatch oneStmtConn =
      (.ok (),
       { isClosed := false, aliveClosed := false, inTx := true,
         txOpts := TxOptions.zero,
         sqls := ["UPDATE t SET a = 1", "UPDATE t SET a = 1"],
         delayedResult := [0, 2],
         heap := [some (.ofDriver (.delayed 3)), none, none, none] },
       []) := by
  rfl

/-- Claim C2, behaviour of the code at the failing input: an exec inside a
non-read-only transaction appends cell 0 to `pendingResults` but hands the
caller a DIFFERENT freshly allocated delayed result (cell 1), which is not
in `pendingResults` and therefore can never be resolved at commit. -/
theorem claim2_exec_returns_distinct_delayed_result :
    ExecContext noSubmit noWait txConn "INSERT INTO t VALUES (1)" [] =
      (.ok (.delayed 1),
       { isClosed := false, aliveClosed := false, inTx := true,
         txOpts := TxOptions.zero,
         sqls := ["INSERT INTO t VALUES (1)"],
         delayedResult := [0], heap := [none, none] },
       []) ∧
    (1 : Nat) ∉ ([0] : List Nat) := by
  refine ⟨by rfl, by decide⟩

/-- Claim C3 counterexample: committing three buffered statements against a
batched response that enumerates only two sub-statement descriptors returns
the indexing error for position 2, but the Delayed Results at positions 0
and 1 (cells 0 and 2) HAVE been resolved with the partial batch outcomes —
resolution is not all-or-nothing. -/
theorem claim3_counterexample :
    OnCommit noSubmit noWait (.ok ⟨[⟨5⟩, ⟨7⟩]⟩) threeStmtConn =
      (.error (.goError (.subStatementNotFound 2)),
       { isClosed := false, aliveClosed := false, inTx := true,
         txOpts := TxOptions.zero,
         sqls := ["UPDATE t SET a = 1", "INSERT INTO u VALUES (2)", "DELETE FROM v"],
         delayedResult := [0, 2, 4],
         heap := [some (.subStatement 5), none, some (.subStatement 7),
                  none, none, none] },
       [.batchExecuteStatement
          ["UPDATE t SET a = 1", "INSERT INTO u VALUES (2)", "DELETE FROM v"]]) := by
  rfl

/-- Claim C3 as amended: for every transaction with two or more buffered
statements (buffers index-aligned), if the batched response enumerates fewer
sub-statement descriptors than statements submitted then commit returns the
indexing error naming the first missing position, the transaction is
abandoned rather than committed (the connection stays in the transaction
with its buffers intact), and exactly the Delayed Results paired with the
descriptors that were returned are resolved — a proper prefix, not
none-versus-all. -/
theorem claim3_amended_partial_resolution (conn : Conn)
    (submit : Except String ExecOut) (wait : Except String DescribeOut)
    (desc : BatchDescribeOut) (hin : conn.inTx = true)
    (hlen : conn.sqls.length = conn.delayedResult.length)
    (h2 : 2 ≤ conn.sqls.length)
    (hshort : desc.subStatements.length < conn.sqls.length) :
    OnCommit submit wait (.ok desc) conn =
      (.error (.goError (.subStatementNotFound desc.subStatements.length)),
       { conn with
           heap := resolvePrefix conn.delayedResult desc.subStatements conn.heap },
       [.batchExecuteStatement conn.sqls]) := by
  have hlen' : desc.subStatements.length < conn.delayedResult.length := by omega
  have h0 : ¬(conn.sqls.length = 0) := by omega
  have h1 : ¬(conn.sqls.length = 1) := by omega
  have hne : ¬(conn.sqls.length ≠ conn.delayedResult.length) := by omega
  unfold OnCommit
  rw [if_neg (by simp [hin]), if_neg h0, if_neg hne, if_neg h1]
  show (match resolveLoop conn.delayedResult desc.subStatements 0 conn.heap with
    | .inl heap' => ((.ok (), cleanup { conn with heap := heap' },
        [RemoteCall.batchExecuteStatement conn.sqls]) : OpResult Unit)
    | .inr (i, heap') =>
        (.error (.goError (.subStatementNotFound i)), { conn with heap := heap' },
          [RemoteCall.batchExecuteStatement conn.sqls])) = _
  rw [resolveLoop_eq, if_pos hlen']
  simp

/-- Witness for C3's amended claim: the three-statement fixture committed
against a two-descriptor response. -/
theorem claim3_witness :
    threeStmtConn.inTx = true ∧
    threeStmtConn.sqls.length = threeStmtConn.delayedResult.length ∧
    2 ≤ threeStmtConn.sqls.length ∧
    (BatchDescribeOut.mk [⟨5⟩, ⟨7⟩]).subStatements.length < threeStmtConn.sqls.length ∧
    OnCommit noSubmit noWait (.ok ⟨[⟨5⟩, ⟨7⟩]⟩) threeStmtConn =
      (.error (.goError (.subStatementNotFound
          (BatchDescribeOut.mk [⟨5⟩, ⟨7⟩]).subStatements.length)),
       { threeStmtConn with
           heap := resolvePrefix threeStmtConn.delayedResult
             (BatchDescribeOut.mk [⟨5⟩, ⟨7⟩]).subStatements threeStmtConn.heap },
       [.batchExecuteStatement threeStmtConn.sqls]) :=
  ⟨by decide, by decide, by decide, by decide,
   claim3_amended_partial_resolution threeStmtConn noSubmit noWait ⟨[⟨5⟩, ⟨7⟩]⟩
     (by decide) (by decide) (by decide) (by decide)⟩

/-- Claim C6: begin fails with the in-transaction error whenever a
transaction is active; fails with the not-supported error whenever the
options request a non-default isolation level; and on success (from any
reachable idle state) transitions to InTransaction recording the options,
with no buffered statements and no buffered Delayed Results in the resulting
state — every reachable Idle state already has empty buffers (they are
cleared by commit/rollback), so the post-begin state holds no stale
entries. -/
theorem claim6_beginTx (conn : Conn) (opts : TxOptions) (h : Reachable conn) :
    (conn.inTx = true →
      BeginTx conn opts = (.error (.goError .errInTx), conn, [])) ∧
    (conn.inTx = false → opts.isolation ≠ levelDefault →
      BeginTx conn opts =
        (.error (.goError (.notSupported "isolation level")), conn, [])) ∧
    (conn.inTx = false → opts.isolation = levelDefault →
      BeginTx conn opts = (.ok (), { conn with inTx := true, txOpts := opts }, []) ∧
      ({ conn with inTx := true, txOpts := opts } : Conn).sqls = [] ∧
      ({ conn with inTx := true, txOpts := opts } : Conn).delayedResult = []) := by
  refine ⟨?_, ?_, ?_⟩
  · intro hin
    simp [BeginTx, hin]
  · intro hin hiso
    simp [BeginTx, hin, hiso]
  · intro hin hiso
    obtain ⟨h1, h2⟩ := reachable_inv h
    obtain ⟨e1, e2⟩ := h2 hin
    exact ⟨by simp [BeginTx, hin, hiso], by simpa using e1, by simpa using e2⟩

/-- Witness for C6: a fresh connection accepts a default begin (ending with
empty buffers), and the resulting state rejects a second begin. -/
theorem claim6_witness :
    (BeginTx NewConnection TxOptions.zero =
      (.ok (), { NewConnection with inTx := true, txOpts := TxOptions.zero }, []) ∧
     ({ NewConnection with inTx := true, txOpts := TxOptions.zero } : Conn).sqls = [] ∧
     ({ NewConnection with inTx := true, txOpts := TxOptions.zero } : Conn).delayedResult = []) ∧
    BeginTx txConn TxOptions.zero = (.error (.goError .errInTx), txConn, []) :=
  ⟨(claim6_beginTx NewConnection TxOptions.zero Reachable.init).2.2 rfl rfl,
   (claim6_beginTx txConn TxOptions.zero
      (Reachable.stepBegin TxOptions.zero Reachable.init)).1 rfl⟩

/-- In a transaction, ExecContext never raises a runtime fault: it either
rejects the call or buffers it. -/
theorem execContext_inTx_not_fatal {c : Conn} (submit : Except String ExecOut)
    (wait : Except String DescribeOut) (q : String) (args : List NamedValue)
    (hin : c.inTx = true) :
    isFatal (ExecContext submit wait c q args).1 = false := by
  unfold ExecContext
  rw [if_pos hin]
  split
  · rfl
  · split <;> rfl

/-- Claim C8: in every state reachable through the connection's operations
(begin, exec, query, commit, rollback, close) the buffered statement list
and the buffered Delayed Result list have equal length, and consequently
commit's mismatch check — the unrecoverable fault (`panic`), kept distinct
from ordinary returned errors — never fires, whatever remote responses
commit is given. -/
theorem claim8_buffer_invariant_no_fault (c : Conn) (h : Reachable c) :
    c.sqls.length = c.delayedResult.length ∧
    ∀ (submit : Except String ExecOut) (wait : Except String DescribeOut)
      (batch : Except String BatchDescribeOut),
      isFatal (OnCommit submit wait batch c).1 = false := by
  obtain ⟨h1, h2⟩ := reachable_inv h
  refine ⟨h1, fun submit wait batch => ?_⟩
  unfold OnCommit
  split
  · rfl
  rename_i hin
  have hin' : c.inTx = true := by
    cases hx : c.inTx
    · exact absurd hx hin
    · rfl
  split
  · rfl
  split
  · rename_i hne
    exact absurd h1 hne
  split
  · split
    · rfl
    · rename_i m conn' tr heq
      have hnf := execContext_inTx_not_fatal submit wait (c.sqls.headD "") [] hin'
      rw [heq] at hnf
      simp [isFatal] at hnf
    · rfl
  · split
    · rfl
    · split <;> rfl

/-- Witness for C8: the fresh connection has aligned (empty) buffers, and a
stray commit on it does not trip the fault. -/
theorem claim8_witness :
    NewConnection.sqls.length = NewConnection.delayedResult.length ∧
    isFatal (OnCommit noSubmit noWait noBatch NewConnection).1 = false :=
  ⟨(claim8_buffer_invariant_no_fault NewConnection Reachable.init).1,
   (claim8_buffer_invariant_no_fault NewConnection Reachable.init).2
     noSubmit noWait noBatch⟩

/-- Claim C9: after the wait loop returns a status description, the
single-statement execution path maps terminal states as follows: an aborted
status yields the error carrying the remote-reported message, a failed
status yields the error carrying the remote-reported message, any status
other than finished/failed/aborted yields an error rather than success, and
a successful outcome occurs only under a finished status. -/
theorem claim9_terminal_state_mapping (params : ExecuteStatementInput)
    (out : ExecOut) (desc : DescribeOut) :
    (desc.status = .aborted → ∀ msg, desc.error = some msg →
      (executeStatement (.ok out) (.ok desc) params).1 =
        .error (.goError (.queryAborted msg))) ∧
    (desc.status = .failed → ∀ msg, desc.error = some msg →
      (executeStatement (.ok out) (.ok desc) params).1 =
        .error (.goError (.queryFailed msg))) ∧
    (desc.status ≠ .aborted → desc.status ≠ .failed → desc.status ≠ .finished →
      (executeStatement (.ok out) (.ok desc) params).1 =
        .error (.goError (.queryNotFinished desc.status))) ∧
    (∀ v, (executeStatement (.ok out) (.ok desc) params).1 = .ok v →
      desc.status = .finished) := by
  refine ⟨?_, ?_, ?_, ?_⟩
  · intro hst msg herr
    simp [executeStatement, hst, herr]
  · intro hst msg herr
    simp [executeStatement, hst, herr]
  · intro h1 h2 h3
    simp [executeStatement, h1, h2, h3]
  · intro v hv
    cases hstat : desc.status
    case finished => rfl
    all_goals
      exfalso
      rw [show (executeStatement (.ok out) (.ok desc) params).1 =
            (executeStatement (.ok out) (.ok desc) params).1 from rfl] at hv
      cases herr : desc.error <;> cases hrs : desc.hasResultSet <;>
        simp [executeStatement, hstat, herr, hrs] at hv

/-- Witness for C9 at concrete describe outputs: an aborted status with a
remote message maps to the aborted error, and an error outcome is produced
(not success). -/
theorem claim9_witness :
    (DescribeOut.mk none .aborted (some "serializable isolation violation") none 0).status = .aborted ∧
    (executeStatement (.ok ⟨some "stmt-1"⟩)
        (.ok (DescribeOut.mk none .aborted (some "serializable isolation violation") none 0))
        { sql := some "UPDATE t SET a = 1", parameters := [] }).1 =
      .error (.goError (.queryAborted "serializable isolation violation")) :=
  ⟨rfl,
   (claim9_terminal_state_mapping { sql := some "UPDATE t SET a = 1", parameters := [] }
      ⟨some "stmt-1"⟩
      (DescribeOut.mk none .aborted (some "serializable isolation violation") none 0)).1
     rfl "serializable isolation violation" rfl⟩

end Metasql
